import Mathlib

/-!
Shallow embedding of the `tg` Telegram bot-API client library (Go).

The definitions below are translated from `src/tg.go` (the current revision
of the package). `src/unnamed/part_004` is an earlier revision of the same
package; its error-redaction behaviour is discussed where relevant.

Go `error` values are modelled by the inductive `GoErr`; a Go function
returning `error` is modelled as returning `Option GoErr` (with `none` for
the `nil` error) or `Except GoErr α` when it also returns a value.
Go strings are modelled as Lean `String`s; `len` on a Go string is the
UTF-8 byte count, modelled by `goLen`. Go `int64` fields carry no
arithmetic in this code (only comparisons with zero), so they are
modelled as `Int`.
-/

namespace Tg

/-- The sentinel error values declared with `errors.New` in `src/tg.go`,
together with the two local-validation sentinels of `validate`. -/
inductive ErrKind where
  | unknownParseMode
  | emptyChatID
  | emptyText
  | textTooLong
  | incorrectMessageThreadID
  | incorrectMessageID
  | incorrectScheme
  | emptyHost
  | httpClientNil
  | incorrentToken
  | valueNil
  | valueNotPtr
  | valueNotStructOrBool
deriving DecidableEq, Repr

/-- The `Error()` string of each sentinel, as written in `src/tg.go`. -/
def ErrKind.message : ErrKind → String
  | .unknownParseMode => "unknown parse_mode"
  | .emptyChatID => "empty chat_id"
  | .emptyText => "empty text"
  | .textTooLong => "text too long"
  | .incorrectMessageThreadID => "incorrect message_thread_id"
  | .incorrectMessageID => "incorrect message_id"
  | .incorrectScheme => "incorrect scheme"
  | .emptyHost => "empty host"
  | .httpClientNil => "httpclient is nil"
  | .incorrentToken => "incorrect token"
  | .valueNil => "value is nil"
  | .valueNotPtr => "value not ptr"
  | .valueNotStructOrBool => "value not struct or bool"

/-- The decoded error part of the Telegram response envelope
(`ResponseError` in `src/tg.go`); `RetryAfter` models the nested
`Parameters.RetryAfter` field. -/
structure ResponseError where
  Ok : Bool
  ErrorCode : Int
  Description : String
  RetryAfter : Int
deriving DecidableEq, Repr

/-- Zero value of `ResponseError` (Go `ResponseError{}`). -/
def zeroResponseError : ResponseError := ⟨false, 0, "", 0⟩

/-- Go `error` values that arise in this library: sentinel errors,
plain-message errors coming from outside the package (transport and JSON
errors), a `ResponseError` used as an error, and `fmt.Errorf("<pre>%w", e)`
wrapping. -/
inductive GoErr where
  | std (e : ErrKind)
  | msg (s : String)
  | responseErr (r : ResponseError)
  | wrap (pre : String) (inner : GoErr)
deriving DecidableEq, Repr

/-- The `Error()` display string of a `GoErr`.
`ResponseError.Error` returns the `Description` field (src/tg.go:342-344);
`fmt.Errorf("<pre>%w", e)` produces the text `<pre> ++ e.Error()`. -/
def GoErr.message : GoErr → String
  | .std e => e.message
  | .msg s => s
  | .responseErr r => r.Description
  | .wrap pre inner => pre ++ inner.message

/-- Go `len` of a string: its UTF-8 byte count. -/
def goLen (s : String) : Nat := s.utf8ByteSize

/-- `ParseMode` is a Go string type. -/
abbrev ParseMode := String

/-- `parseModeList` from src/tg.go:26-31 (the current revision includes
the empty string). -/
def parseModeList : List ParseMode := ["MarkdownV2", "Markdown", "HTML", ""]

/-- `ParseMode.Validate` (src/tg.go:35-41). -/
def ParseMode.Validate (m : ParseMode) : Option ErrKind :=
  if !(parseModeList.contains m) then some .unknownParseMode else none

/-- `BaseMessage` (src/tg.go:43-47). -/
structure BaseMessage where
  ChatID : Int
  Text : String
  ParseMode : ParseMode
deriving DecidableEq, Repr

/-- `MaxTextSize` (src/tg.go:49). -/
def MaxTextSize : Nat := 4096

/-- `BaseMessage.Validate` (src/tg.go:57-75). -/
def BaseMessage.Validate (bm : BaseMessage) : Option ErrKind :=
  if bm.ChatID = 0 then some .emptyChatID
  else if bm.Text = "" then some .emptyText
  else if goLen bm.Text > MaxTextSize then some .textTooLong
  else ParseMode.Validate bm.ParseMode

/-- `SendMessage` (src/tg.go:77-83); the embedded `BaseMessage` is the
`base` field. -/
structure SendMessage where
  base : BaseMessage
  MessageThreadID : Int
  DisableWebPagePreview : Bool
  DisableNotification : Bool
  ProtectContent : Bool
deriving DecidableEq, Repr

/-- `SendMessage.Validate` (src/tg.go:87-97). -/
def SendMessage.Validate (sm : SendMessage) : Option ErrKind :=
  match sm.base.Validate with
  | some e => some e
  | none => if sm.MessageThreadID < 0 then some .incorrectMessageThreadID else none

/-- `EditMessage` (src/tg.go:148-151). -/
structure EditMessage where
  MessageID : Int
  base : BaseMessage
deriving DecidableEq, Repr

/-- `EditMessage.Validate` (src/tg.go:155-161): the message-id check comes
first, before the embedded `BaseMessage.Validate`. -/
def EditMessage.Validate (em : EditMessage) : Option ErrKind :=
  if em.MessageID ≤ 0 then some .incorrectMessageID
  else em.base.Validate

/-- `DeleteMessage` (src/tg.go:189-192). -/
structure DeleteMessage where
  ChatID : Int
  MessageID : Int
deriving DecidableEq, Repr

/-- `DeleteMessage.Validate` (src/tg.go:194-204): the chat-id check comes
first. -/
def DeleteMessage.Validate (dm : DeleteMessage) : Option ErrKind :=
  if dm.ChatID = 0 then some .emptyChatID
  else if dm.MessageID ≤ 0 then some .incorrectMessageID
  else none

/-- `SendOption` (src/tg.go:99): a mutation of a `SendMessage`, modelled as
a pure update function. -/
def SendOption := SendMessage → SendMessage

/-- `ParseModeSendOption` (src/tg.go:118-122). -/
def ParseModeSendOption (mode : ParseMode) : SendOption :=
  fun sm => { sm with base := { sm.base with ParseMode := mode } }

/-- `MessageThreadIDSendOption` (src/tg.go:124-128). -/
def MessageThreadIDSendOption (threadID : Int) : SendOption :=
  fun sm => { sm with MessageThreadID := threadID }

/-- Go zero value `new(SendMessage)`. -/
def zeroSendMessage : SendMessage := ⟨⟨0, "", ""⟩, 0, false, false, false⟩

/-- `NewSendMessage` (src/tg.go:101-116): the options run first on the zero
value, then `ChatID` and `Text` are assigned from the arguments, then the
request is validated. -/
def NewSendMessage (chatID : Int) (text : String) (opts : List SendOption) :
    Except GoErr SendMessage :=
  let sm := opts.foldl (fun sm opt => opt sm) zeroSendMessage
  let sm := { sm with base := { sm.base with ChatID := chatID, Text := text } }
  match sm.Validate with
  | some e => .error (.wrap "SendMessage: " (.std e))
  | none => .ok sm

/-- `EditOption` (src/tg.go:163). -/
def EditOption := EditMessage → EditMessage

/-- `ParseModeEditOption` (src/tg.go:183-187). -/
def ParseModeEditOption (mode : ParseMode) : EditOption :=
  fun em => { em with base := { em.base with ParseMode := mode } }

/-- Go zero value `new(EditMessage)`. -/
def zeroEditMessage : EditMessage := ⟨0, ⟨0, "", ""⟩⟩

/-- `NewEditMessage` (src/tg.go:165-181): options first, then `ChatID`,
`MessageID` and `Text` from the arguments, then validation. -/
def NewEditMessage (chatID messageID : Int) (text : String) (opts : List EditOption) :
    Except GoErr EditMessage :=
  let em := opts.foldl (fun em opt => opt em) zeroEditMessage
  let em := { em with MessageID := messageID,
                      base := { em.base with ChatID := chatID, Text := text } }
  match em.Validate with
  | some e => .error (.wrap "EditMessage: " (.std e))
  | none => .ok em

/-- `NewDeleteMessage` (src/tg.go:206-217). -/
def NewDeleteMessage (chatID messageID : Int) : Except GoErr DeleteMessage :=
  let dm : DeleteMessage := ⟨chatID, messageID⟩
  match dm.Validate with
  | some e => .error (.wrap "DeleteMessage: " (.std e))
  | none => .ok dm

/-!
## Client construction (src/tg.go:241-326)
-/

/-- An injected HTTP transport value. The Go `HTTPClient` interface value is
abstract here: the model only needs to distinguish the package-level
`defaultHTTPClient` from caller-supplied transports. A Go `nil` interface is
modelled as `none` at use sites. -/
inductive HC where
  | defaultHTTPClient
  | custom (id : Nat)
deriving DecidableEq, Repr

/-- `Client` (src/tg.go:241-244): `http` is `none` while the field still
holds Go `nil`. -/
structure Client where
  http : Option HC
  endpoint : String
deriving DecidableEq, Repr

/-- `Option func(*Client) error` (src/tg.go:248), as a state-passing
function. -/
def ClientOption := Client → Except GoErr Client

/-- Characters RE2 accepts after the first character of a URI scheme. -/
def isSchemeRestChar (c : Char) : Bool :=
  c.isAlpha || c.isDigit || c = '+' || c = '-' || c = '.'

/-- Split a character list at its first colon, returning the parts before
and after it. -/
def splitAtColon : List Char → Option (List Char × List Char)
  | [] => none
  | c :: cs =>
      if c = ':' then some ([], cs)
      else match splitAtColon cs with
        | none => none
        | some (a, b) => some (c :: a, b)

/-- A parsed URL, reduced to the two components `WithAPIServer` inspects. -/
structure GoURL where
  Scheme : String
  Host : String
deriving DecidableEq, Repr

/-- Model of `net/url.ParseRequestURI` restricted to what `WithAPIServer`
observes: the input must be a non-empty absolute URI `scheme:rest` with a
well-formed scheme; when `rest` starts with `//` the host is the authority
up to the next `/`, `?` or `#` (userinfo/port decomposition and escape
checking are not modelled); otherwise the host is empty. -/
def parseRequestURI (s : String) : Except String GoURL :=
  if s = "" then .error "parse \"\": empty url"
  else match splitAtColon s.data with
    | none => .error ("parse \x22" ++ s ++ "\x22: invalid URI for request")
    | some (sch, rest) =>
      if sch.isEmpty then .error ("parse \x22" ++ s ++ "\x22: missing protocol scheme")
      else if !((sch.headD 'a').isAlpha && (sch.drop 1).all isSchemeRestChar) then
        .error ("parse \x22" ++ s ++ "\x22: invalid URI for request")
      else
        let host : List Char :=
          match rest with
          | '/' :: '/' :: r => r.takeWhile (fun c => c != '/' && c != '?' && c != '#')
          | _ => []
        .ok ⟨⟨sch⟩, ⟨host⟩⟩

/-- `WithAPIServer` (src/tg.go:255-274). -/
def WithAPIServer (server : String) : ClientOption :=
  fun cl =>
    match parseRequestURI server with
    | .error e => .error (.wrap "apiserver: " (.msg e))
    | .ok u =>
      if u.Scheme ≠ "http" ∧ u.Scheme ≠ "https" then
        .error (.wrap "apiserver: url: " (.std .incorrectScheme))
      else if u.Host = "" then
        .error (.wrap "apiserver: url: " (.std .emptyHost))
      else .ok { cl with endpoint := server }

/-- `WithHTTPClient` (src/tg.go:278-288): a Go `nil` argument is `none`. -/
def WithHTTPClient (client : Option HC) : ClientOption :=
  fun cl =>
    match client with
    | none => .error (.std .httpClientNil)
    | some h => .ok { cl with http := some h }

/-- `defaultAPIServer` (src/tg.go:290). -/
def defaultAPIServer : String := "https://api.telegram.org"

/-- A `\w` or `-` character: RE2 `\w` is `[0-9A-Za-z_]`, so the class
`[\d\w\-]` of `regexpToken` accepts digits, letters, underscore and dash. -/
def isTokenTailChar (c : Char) : Bool :=
  c.isDigit || c.isAlpha || c = '_' || c = '-'

/-- Model of `regexpToken.MatchString` for the anchored pattern
`([\d]+):([\d\w\-]+)` (src/tg.go:301): since a colon belongs to neither
character class, a string matches exactly when it splits at its unique colon
into a non-empty run of digits and a non-empty run of `[\d\w\-]`
characters. -/
def tokenMatches (t : String) : Bool :=
  match splitAtColon t.data with
  | none => false
  | some (a, b) => !a.isEmpty && a.all Char.isDigit && !b.isEmpty && b.all isTokenTailChar

/-- `opt` application loop of `NewClient` (src/tg.go:313-317), without the
`"Client: "` wrapping, which `NewClient` adds. -/
def applyOptions : List ClientOption → Client → Except GoErr Client
  | [], cl => .ok cl
  | opt :: opts, cl =>
      match opt cl with
      | .error e => .error e
      | .ok cl2 => applyOptions opts cl2

/-- The client `NewClient` starts from: `endpoint` is the default server and
the transport field is Go `nil`. -/
def initClient : Client := ⟨none, defaultAPIServer⟩

/-- `NewClient` (src/tg.go:305-326): token shape check, then the options in
order with short-circuit, then the default-transport fallback, then the
token is appended to the endpoint. -/
def NewClient (token : String) (options : List ClientOption) : Except GoErr Client :=
  if !tokenMatches token then .error (.wrap "Client: " (.std .incorrentToken))
  else match applyOptions options initClient with
    | .error e => .error (.wrap "Client: " e)
    | .ok cl =>
      let cl := if cl.http = none then { cl with http := some .defaultHTTPClient } else cl
      .ok { cl with endpoint := cl.endpoint ++ "/bot" ++ token ++ "/" }

/-!
## The generic invoker `Client.API` (src/tg.go:328-422)

The `req`/`resp` arguments of `Client.API` are Go `any` values inspected
through `reflect`; they are modelled at that level of detail: a reflect
kind, the pointee kind for pointers, and whether `json.Marshal` succeeds on
the value.
-/

/-- The reflect kinds this code distinguishes. `kinvalid` is the kind of
the `reflect.Value` obtained by dereferencing a nil pointer. -/
inductive Kind where
  | kbool
  | kint
  | kstring
  | kstruct
  | kptr
  | kslice
  | kinvalid
deriving DecidableEq, Repr

/-- A non-nil Go interface value as `validate` and `json.Marshal` observe
it: its reflect kind, the kind of its pointee when it is a pointer
(`kinvalid` for a nil pointer), and whether `json.Marshal` succeeds on it
(marshalling fails on values such as structs with channel or function
fields). -/
structure RVal where
  kind : Kind
  elemKind : Kind
  marshalable : Bool
deriving DecidableEq, Repr

/-- `validate` (src/tg.go:352-372): a Go `nil` interface argument is
`none`. -/
def rvalValidate (v : Option RVal) : Option ErrKind :=
  match v with
  | none => some .valueNil
  | some rv =>
    if rv.kind ≠ Kind.kptr then some .valueNotPtr
    else if rv.elemKind ≠ Kind.kstruct ∧ rv.elemKind ≠ Kind.kbool then
      some .valueNotStructOrBool
    else none

/-- A JSON value, the decoded form of a response body. -/
inductive JVal where
  | jnull
  | jbool (b : Bool)
  | jnum (n : Int)
  | jstr (s : String)
  | jarr (xs : List JVal)
  | jobj (fields : List (String × JVal))

/-- Look up a key in a JSON object; like `encoding/json`, the last
occurrence of a duplicated key wins. -/
def jLookup : List (String × JVal) → String → Option JVal
  | [], _ => none
  | (k, v) :: rest, key =>
      match jLookup rest key with
      | some v2 => some v2
      | none => if k = key then some v else none

/-- Decode a JSON value into a Go `bool` field: an absent key or `null`
leaves the zero value, a boolean is taken as is, anything else is a type
error (as `encoding/json` reports). -/
def decodeBoolField (fs : List (String × JVal)) (key : String) : Except String Bool :=
  match jLookup fs key with
  | none => .ok false
  | some .jnull => .ok false
  | some (.jbool b) => .ok b
  | some _ => .error ("json: cannot unmarshal into field " ++ key ++ " of type bool")

/-- Decode a JSON value into a Go `int` field. -/
def decodeIntField (fs : List (String × JVal)) (key : String) : Except String Int :=
  match jLookup fs key with
  | none => .ok 0
  | some .jnull => .ok 0
  | some (.jnum n) => .ok n
  | some _ => .error ("json: cannot unmarshal into field " ++ key ++ " of type int")

/-- Decode a JSON value into a Go `string` field. -/
def decodeStringField (fs : List (String × JVal)) (key : String) : Except String String :=
  match jLookup fs key with
  | none => .ok ""
  | some .jnull => .ok ""
  | some (.jstr s) => .ok s
  | some _ => .error ("json: cannot unmarshal into field " ++ key ++ " of type string")

/-- Decode the `parameters.retry_after` field. -/
def decodeRetryAfter (fs : List (String × JVal)) : Except String Int :=
  match jLookup fs "parameters" with
  | none => .ok 0
  | some .jnull => .ok 0
  | some (.jobj fs2) => decodeIntField fs2 "retry_after"
  | some _ => .error "json: cannot unmarshal into field parameters"

/-- `encoding/json` decoding of a response body into `Response`
(src/tg.go:328-340, 410-415): every envelope field absent from the body
keeps its zero value. The `result` slot (decoded into the caller's response
target) is outside this model; the bodies the claims exercise carry no
`result` member. -/
def decodeResponse (v : JVal) : Except String ResponseError :=
  match v with
  | .jobj fs =>
    match decodeBoolField fs "ok" with
    | .error e => .error e
    | .ok okv =>
      match decodeIntField fs "error_code" with
      | .error e => .error e
      | .ok code =>
        match decodeStringField fs "description" with
        | .error e => .error e
        | .ok desc =>
          match decodeRetryAfter fs with
          | .error e => .error e
          | .ok retry => .ok ⟨okv, code, desc, retry⟩
  | .jnull => .ok zeroResponseError
  | _ => .error "json: cannot unmarshal into Response"

/-- What the injected transport's `Do` produces for one call: either an
error, or a response whose body reads as the given JSON parse outcome
(`Except.error` stands for an unreadable or malformed body together with
the json error message). -/
inductive TransportResult where
  | doErr (m : String)
  | ok (body : Except String JVal)

/-- The phase of `Client.API` before the transport is consulted
(src/tg.go:375-392): request-shape validation and marshalling when a
request body is present, then response-target-shape validation. Failure
messages are wrapped exactly as in the source. -/
def apiPre (req resp : Option RVal) : Option GoErr :=
  match req with
  | some r =>
    match rvalValidate (some r) with
    | some e => some (.wrap "validate: req " (.std e))
    | none =>
      if r.marshalable then
        match rvalValidate resp with
        | some e => some (.wrap "validate: resp " (.std e))
        | none => none
      else some (.wrap "request: json: " (.msg "json: unsupported type"))
  | none =>
    match rvalValidate resp with
    | some e => some (.wrap "validate: resp " (.std e))
    | none => none

/-- The transport's `Do` is reached exactly when the pre-transport phase
produced no error. -/
def apiCallsTransport (req resp : Option RVal) : Bool :=
  (apiPre req resp).isNone

/-- The request-body argument gets past its own phase of `Client.API`:
it is absent, or it is well-shaped and `json.Marshal` succeeds on it. -/
def reqPasses : Option RVal → Bool
  | none => true
  | some r => (rvalValidate (some r)).isNone && r.marshalable

/-- The phase of `Client.API` from the transport call on
(src/tg.go:403-421): a transport failure is wrapped as `request: `, a
decode failure as `response: json: `, a decoded envelope with a false `ok`
flag is returned wrapped as `response: `, and a true flag yields no
error. -/
def apiTransportPhase (tr : TransportResult) : Option GoErr :=
  match tr with
  | .doErr m => some (.wrap "request: " (.msg m))
  | .ok body =>
    let decoded := match body with
      | .error e => Except.error e
      | .ok j => decodeResponse j
    match decoded with
    | .error e => some (.wrap "response: json: " (.msg e))
    | .ok r => if !r.Ok then some (.wrap "response: " (.responseErr r)) else none

/-- `Client.API` (src/tg.go:374-422), restricted to its error behaviour.
`http.NewRequestWithContext` with method POST and the client's well-formed
URL cannot fail, so its error branch does not appear. The client receiver
only contributes the request URL, which the transport model does not
inspect. -/
def clientAPI (cl : Client) (method : String) (req resp : Option RVal)
    (tr : TransportResult) : Option GoErr :=
  match apiPre req resp with
  | some e => some e
  | none =>
    let _ := cl.endpoint ++ method
    apiTransportPhase tr

/-- The reflect shape of a non-nil pointer to one of this package's
(marshalable) structs, such as `*SendMessage`, `*Message` or `*User`. -/
def ptrStructVal : RVal := ⟨.kptr, .kstruct, true⟩

/-- The reflect shape of `&resp` for the `bool` response of
`DeleteMessage`. -/
def ptrBoolVal : RVal := ⟨.kptr, .kbool, true⟩

/-- Error behaviour of `Client.GetMe` (src/tg.go:426-434): the success
value (the decoded `User`) is outside this model. -/
def clientGetMe (cl : Client) (tr : TransportResult) : Option GoErr :=
  match clientAPI cl "getMe" none (some ptrStructVal) tr with
  | some e => some (.wrap "GetMe: " e)
  | none => none

/-- Error behaviour of `Client.SendMessage` (src/tg.go:438-453). -/
def clientSendMessage (cl : Client) (chatID : Int) (text : String)
    (opts : List SendOption) (tr : TransportResult) : Option GoErr :=
  match NewSendMessage chatID text opts with
  | .error e => some (.wrap "SendMessage: " e)
  | .ok _ =>
    match clientAPI cl "sendMessage" (some ptrStructVal) (some ptrStructVal) tr with
    | some e => some (.wrap "SendMessage: " e)
    | none => none

/-- Error behaviour of `Client.EditMessage` (src/tg.go:457-472). -/
def clientEditMessage (cl : Client) (chatID messageID : Int) (text : String)
    (opts : List EditOption) (tr : TransportResult) : Option GoErr :=
  match NewEditMessage chatID messageID text opts with
  | .error e => some (.wrap "EditMessage: " e)
  | .ok _ =>
    match clientAPI cl "editMessageText" (some ptrStructVal) (some ptrStructVal) tr with
    | some e => some (.wrap "EditMessage: " e)
    | none => none

/-- Error behaviour of `Client.DeleteMessage` (src/tg.go:476-489). -/
def clientDeleteMessage (cl : Client) (chatID messageID : Int)
    (tr : TransportResult) : Option GoErr :=
  match NewDeleteMessage chatID messageID with
  | .error e => some (.wrap "DeleteMessage: " e)
  | .ok _ =>
    match clientAPI cl "deleteMessage" (some ptrStructVal) (some ptrBoolVal) tr with
    | some e => some (.wrap "DeleteMessage: " e)
    | none => none

/-- Whether `pat` occurs as a contiguous substring of `s`. -/
def strContainsB (s pat : String) : Bool :=
  decide (pat.data <:+: s.data)

/-!
## Helper lemmas
-/

/-- A Go string has byte length zero exactly when it is empty. -/
theorem goLen_eq_zero_iff (s : String) : goLen s = 0 ↔ s = "" := by
  constructor
  · intro h
    cases s with
    | mk data =>
      cases data with
      | nil => rfl
      | cons c cs =>
        exfalso
        simp [goLen, String.utf8ByteSize, String.utf8ByteSize.go] at h
        have := Char.utf8Size_pos c
        omega
  · intro h
    subst h
    rfl

/-- `ParseMode.Validate` characterized by the four accepted mode strings. -/
theorem pm_validate_eq (m : ParseMode) :
    ParseMode.Validate m = if m = "" ∨ m = "MarkdownV2" ∨ m = "Markdown" ∨ m = "HTML"
      then none else some .unknownParseMode := by
  unfold ParseMode.Validate
  have : parseModeList.contains m
      = decide (m = "" ∨ m = "MarkdownV2" ∨ m = "Markdown" ∨ m = "HTML") := by
    simp [parseModeList, List.contains_cons, List.contains_nil, decide_eq_true_eq]
    by_cases h1 : m = "MarkdownV2" <;> by_cases h2 : m = "Markdown" <;>
      by_cases h3 : m = "HTML" <;> by_cases h4 : m = "" <;> simp [h1, h2, h3, h4]
  rw [this]
  by_cases h : m = "" ∨ m = "MarkdownV2" ∨ m = "Markdown" ∨ m = "HTML" <;> simp [h]

/-- `rvalValidate` on a non-nil value, unfolded to its two checks. -/
theorem rvalValidate_some (r : RVal) :
    rvalValidate (some r)
      = if r.kind ≠ Kind.kptr then some ErrKind.valueNotPtr
        else if r.elemKind ≠ Kind.kstruct ∧ r.elemKind ≠ Kind.kbool then
          some ErrKind.valueNotStructOrBool
        else none := rfl

/-- Splitting the option loop of `NewClient` at an append. -/
theorem applyOptions_append (l₁ l₂ : List ClientOption) (cl : Client) :
    applyOptions (l₁ ++ l₂) cl
      = match applyOptions l₁ cl with
        | .error e => .error e
        | .ok cl2 => applyOptions l₂ cl2 := by
  induction l₁ generalizing cl with
  | nil => rfl
  | cons o os ih =>
    have h1 : applyOptions ((o :: os) ++ l₂) cl
        = match o cl with
          | .error e => .error e
          | .ok cl2 => applyOptions (os ++ l₂) cl2 := rfl
    have h2 : applyOptions (o :: os) cl
        = match o cl with
          | .error e => .error e
          | .ok cl2 => applyOptions os cl2 := rfl
    rw [h1, h2]
    cases o cl with
    | error e => rfl
    | ok cl2 => exact ih cl2

end Tg

namespace Tg

/-!
## Claim theorems
-/

/-- C5: for every base (send/edit) message with non-zero chat id and a
parse mode in the allowed set, `Validate` accepts exactly the texts whose
byte length lies in `[1, 4096]`; a length-0 text yields the empty-text
error and a length of 4097 or more yields the too-long error. -/
theorem claim_C5_text_length_trichotomy (bm : BaseMessage) (hchat : bm.ChatID ≠ 0)
    (hmode : bm.ParseMode = "" ∨ bm.ParseMode = "MarkdownV2" ∨
      bm.ParseMode = "Markdown" ∨ bm.ParseMode = "HTML") :
    (1 ≤ goLen bm.Text → goLen bm.Text ≤ 4096 → bm.Validate = none)
    ∧ (goLen bm.Text = 0 → bm.Validate = some .emptyText)
    ∧ (4097 ≤ goLen bm.Text → bm.Validate = some .textTooLong) := by
  unfold BaseMessage.Validate
  rw [if_neg hchat]
  refine ⟨?_, ?_, ?_⟩
  · intro h1 h2
    have hne : bm.Text ≠ "" := by
      intro he
      rw [← goLen_eq_zero_iff] at he
      omega
    rw [if_neg hne, if_neg (by unfold MaxTextSize; omega : ¬ goLen bm.Text > MaxTextSize)]
    rw [pm_validate_eq, if_pos hmode]
  · intro h0
    rw [if_pos ((goLen_eq_zero_iff _).mp h0)]
  · intro h
    have hne : bm.Text ≠ "" := by
      intro he
      rw [← goLen_eq_zero_iff] at he
      omega
    rw [if_neg hne, if_pos (by unfold MaxTextSize; omega : goLen bm.Text > MaxTextSize)]

/-- Witness for C5 at concrete inputs. -/
theorem claim_C5_text_length_trichotomy_witness :
    BaseMessage.Validate ⟨1, "a", "HTML"⟩ = none
    ∧ BaseMessage.Validate ⟨1, "", "HTML"⟩ = some .emptyText := by
  refine ⟨?_, ?_⟩
  · exact (claim_C5_text_length_trichotomy ⟨1, "a", "HTML"⟩ (by decide)
      (by right; right; right; rfl)).1 (by decide) (by decide)
  · exact (claim_C5_text_length_trichotomy ⟨1, "", "HTML"⟩ (by decide)
      (by right; right; right; rfl)).2.1 (by decide)

/-- C6: `ParseMode.Validate` rejects every mode outside
`{"", "MarkdownV2", "Markdown", "HTML"}` with the unknown-parse-mode error
and accepts every mode inside that set, the empty string included. -/
theorem claim_C6_parse_mode_set (m : ParseMode) :
    (¬(m = "" ∨ m = "MarkdownV2" ∨ m = "Markdown" ∨ m = "HTML") →
      ParseMode.Validate m = some .unknownParseMode)
    ∧ ((m = "" ∨ m = "MarkdownV2" ∨ m = "Markdown" ∨ m = "HTML") →
      ParseMode.Validate m = none) := by
  rw [pm_validate_eq]
  constructor
  · intro h
    rw [if_neg h]
  · intro h
    rw [if_pos h]

/-- Witness for C6 at concrete modes. -/
theorem claim_C6_parse_mode_set_witness :
    ParseMode.Validate "test" = some .unknownParseMode
    ∧ ParseMode.Validate "" = none := by
  refine ⟨(claim_C6_parse_mode_set "test").1 (by decide), ?_⟩
  exact (claim_C6_parse_mode_set "").2 (Or.inl rfl)

/-- C2 fails on the code: an edit request with zero chat id and
non-positive message id reports the incorrect-message-id error, not the
empty-chat-id error, because `EditMessage.Validate` checks the message id
first. -/
theorem claim_C2_counterexample :
    EditMessage.Validate ⟨0, ⟨0, "", ""⟩⟩ = some .incorrectMessageID
    ∧ some ErrKind.incorrectMessageID ≠ some ErrKind.emptyChatID := by
  exact ⟨rfl, by decide⟩

/-- C2 (amended): for every send or delete request with zero chat id,
`Validate` returns the empty-chat-id error regardless of other fields;
for edit requests the message-id check runs first, so a non-positive
message id reports the incorrect-message-id error even when the chat id
is also zero, while an edit request with positive message id and zero chat
id reports the empty-chat-id error. -/
theorem claim_C2_amended_zero_chat_id :
    (∀ sm : SendMessage, sm.base.ChatID = 0 → sm.Validate = some .emptyChatID)
    ∧ (∀ dm : DeleteMessage, dm.ChatID = 0 → dm.Validate = some .emptyChatID)
    ∧ (∀ em : EditMessage, 0 < em.MessageID → em.base.ChatID = 0 →
        em.Validate = some .emptyChatID)
    ∧ (∀ em : EditMessage, em.MessageID ≤ 0 →
        em.Validate = some .incorrectMessageID) := by
  refine ⟨?_, ?_, ?_, ?_⟩
  · intro sm h
    unfold SendMessage.Validate BaseMessage.Validate
    rw [if_pos h]
  · intro dm h
    unfold DeleteMessage.Validate
    rw [if_pos h]
  · intro em hpos h
    unfold EditMessage.Validate BaseMessage.Validate
    rw [if_neg (by omega : ¬ em.MessageID ≤ 0), if_pos h]
  · intro em h
    unfold EditMessage.Validate
    rw [if_pos h]

/-- C7 fails on the code in one detail: the token tail class of
`regexpToken` is `[\d\w\-]`, and RE2 `\w` contains the underscore, so the
token `1:a_b` — whose tail is not alphanumeric-or-dash — is accepted by
`NewClient` rather than rejected. -/
theorem claim_C7_counterexample :
    tokenMatches "1:a_b" = true
    ∧ NewClient "1:a_b" []
        = .ok ⟨some .defaultHTTPClient, "https://api.telegram.org/bot1:a_b/"⟩
    ∧ '_'.isAlphanum = false
    ∧ '_' ≠ '-' := by
  exact ⟨by decide, rfl, by decide, by decide⟩

/-- C7 (amended): `NewClient` rejects every token not matching
digits:word-or-dash (word characters being digits, letters and the
underscore) with the token-shape error, independently of the supplied
options; with a well-shaped token it applies the options in order,
short-circuiting on the first failing option regardless of what follows
it; when all options succeed it falls back to the default transport only
if none was set and appends /bot token / to the endpoint of the resulting
configuration. -/
theorem claim_C7_amended_construction :
    (∀ (token : String) (opts : List ClientOption), tokenMatches token = false →
      NewClient token opts = .error (.wrap "Client: " (.std .incorrentToken)))
    ∧ (∀ (token : String) (opts1 : List ClientOption) (o : ClientOption)
        (opts2 : List ClientOption) (cl : Client) (e : GoErr),
        tokenMatches token = true → applyOptions opts1 initClient = .ok cl →
        o cl = .error e →
        NewClient token (opts1 ++ o :: opts2) = .error (.wrap "Client: " e))
    ∧ (∀ (token : String) (opts : List ClientOption) (cl : Client),
        tokenMatches token = true → applyOptions opts initClient = .ok cl →
        NewClient token opts
          = .ok ⟨if cl.http = none then some .defaultHTTPClient else cl.http,
                 cl.endpoint ++ "/bot" ++ token ++ "/"⟩) := by
  refine ⟨?_, ?_, ?_⟩
  · intro token opts h
    simp [NewClient, h]
  · intro token opts1 o opts2 cl e ht h1 h2
    have hfail : applyOptions (opts1 ++ o :: opts2) initClient = .error e := by
      rw [applyOptions_append, h1]
      show (match o cl with
        | Except.error err => Except.error err
        | Except.ok cl2 => applyOptions opts2 cl2) = Except.error e
      rw [h2]
    simp [NewClient, ht, hfail]
  · intro token opts cl ht h1
    simp only [NewClient, ht, Bool.not_true, Bool.false_eq_true, if_false]
    rw [h1]
    by_cases hh : cl.http = none <;> simp [hh]

/-- Witness for C7 (amended) at concrete tokens and options. -/
theorem claim_C7_amended_construction_witness :
    NewClient "bad" [] = .error (.wrap "Client: " (.std .incorrentToken))
    ∧ NewClient "1:test" [WithHTTPClient none]
        = .error (.wrap "Client: " (.std .httpClientNil))
    ∧ NewClient "1:test" []
        = .ok ⟨some .defaultHTTPClient, "https://api.telegram.org/bot1:test/"⟩ := by
  refine ⟨claim_C7_amended_construction.1 "bad" [] (by decide), ?_, ?_⟩
  · exact claim_C7_amended_construction.2.1 "1:test" [] (WithHTTPClient none) []
      initClient (.std .httpClientNil) (by decide) rfl rfl
  · have h := claim_C7_amended_construction.2.2 "1:test" [] initClient (by decide) rfl
    rw [h]
    rfl

/-- C8: `WithAPIServer` accepts exactly the addresses parsing as absolute
URLs with scheme http or https and a non-empty host, storing the address
as the client endpoint; the address test:// fails with the
incorrect-scheme error and http:// fails with the empty-host error. -/
theorem claim_C8_api_server_option :
    (∀ cl : Client, WithAPIServer "test://" cl
        = .error (.wrap "apiserver: url: " (.std .incorrectScheme)))
    ∧ (∀ cl : Client, WithAPIServer "http://" cl
        = .error (.wrap "apiserver: url: " (.std .emptyHost)))
    ∧ (∀ (server : String) (cl cl2 : Client), WithAPIServer server cl = .ok cl2 →
        ∃ u : GoURL, parseRequestURI server = .ok u
          ∧ (u.Scheme = "http" ∨ u.Scheme = "https") ∧ u.Host ≠ ""
          ∧ cl2 = { cl with endpoint := server })
    ∧ (∀ (server : String) (cl : Client) (u : GoURL), parseRequestURI server = .ok u →
        (u.Scheme = "http" ∨ u.Scheme = "https") → u.Host ≠ "" →
        WithAPIServer server cl = .ok { cl with endpoint := server }) := by
  refine ⟨fun cl => rfl, fun cl => rfl, ?_, ?_⟩
  · intro server cl cl2 h
    unfold WithAPIServer at h
    split at h
    · exact absurd h (by simp)
    next u heq =>
      split at h
      · exact absurd h (by simp)
      next hs =>
        split at h
        · exact absurd h (by simp)
        next hh =>
          push_neg at hs
          refine ⟨u, heq, ?_, hh, ?_⟩
          · by_cases h1 : u.Scheme = "http"
            · exact Or.inl h1
            · exact Or.inr (hs h1)
          · injection h with h
            exact h.symm
  · intro server cl u hp hs hh
    have hcond : ¬(u.Scheme ≠ "http" ∧ u.Scheme ≠ "https") := by
      rintro ⟨ha, hb⟩
      rcases hs with hs | hs
      · exact ha hs
      · exact hb hs
    unfold WithAPIServer
    rw [hp]
    show (if u.Scheme ≠ "http" ∧ u.Scheme ≠ "https" then
        Except.error (GoErr.wrap "apiserver: url: " (GoErr.std .incorrectScheme))
      else if u.Host = "" then
        Except.error (GoErr.wrap "apiserver: url: " (GoErr.std .emptyHost))
      else Except.ok { cl with endpoint := server })
      = Except.ok { cl with endpoint := server }
    rw [if_neg hcond, if_neg hh]

/-- Witness for C8 at concrete addresses. -/
theorem claim_C8_api_server_option_witness :
    WithAPIServer "test://" initClient
        = .error (.wrap "apiserver: url: " (.std .incorrectScheme))
    ∧ WithAPIServer "http://" initClient
        = .error (.wrap "apiserver: url: " (.std .emptyHost))
    ∧ WithAPIServer "http://example" initClient = .ok ⟨none, "http://example"⟩ := by
  refine ⟨claim_C8_api_server_option.1 initClient,
    claim_C8_api_server_option.2.1 initClient, ?_⟩
  have h := claim_C8_api_server_option.2.2.2 "http://example" initClient
    ⟨"http", "example"⟩ rfl (Or.inl rfl) (by decide)
  rw [h]
  rfl

/-- C3 fails on the code in one corner: a request body that is a well-shaped
pointer to a struct but on which `json.Marshal` fails makes `Client.API`
return the marshal error — not one of the three shape-validation errors —
even when the response target is nil; the transport is still never
consulted. -/
theorem claim_C3_counterexample :
    clientAPI initClient "getMe" (some ⟨.kptr, .kstruct, false⟩) none (.doErr "boom")
      = some (.wrap "request: json: " (.msg "json: unsupported type"))
    ∧ rvalValidate none = some .valueNil
    ∧ (GoErr.wrap "request: json: " (.msg "json: unsupported type"))
        ≠ .wrap "validate: resp " (.std .valueNil)
    ∧ apiCallsTransport (some ⟨.kptr, .kstruct, false⟩) none = false := by
  exact ⟨rfl, rfl, by decide, rfl⟩

/-- C3 (amended): when the response target is nil, a non-pointer, or a
pointer to a non-struct-non-bool, the transport is never consulted and the
invoker reports the matching shape-validation error, provided the request
body (if present) passed its own shape check and marshalled; a request body
failing its shape check reports its own validation error first, and one
failing to marshal reports the JSON marshal error — in each case before any
transport activity. A non-nil pointer to a struct or bool passes the shape
check. -/
theorem claim_C3_amended_shape_check :
    (∀ (cl : Client) (method : String) (req resp : Option RVal)
        (tr : TransportResult) (e : ErrKind),
      reqPasses req = true → rvalValidate resp = some e →
      clientAPI cl method req resp tr = some (.wrap "validate: resp " (.std e))
        ∧ apiCallsTransport req resp = false)
    ∧ (∀ (cl : Client) (method : String) (r : RVal) (resp : Option RVal)
        (tr : TransportResult) (e : ErrKind),
      rvalValidate (some r) = some e →
      clientAPI cl method (some r) resp tr = some (.wrap "validate: req " (.std e))
        ∧ apiCallsTransport (some r) resp = false)
    ∧ (∀ (cl : Client) (method : String) (r : RVal) (resp : Option RVal)
        (tr : TransportResult),
      rvalValidate (some r) = none → r.marshalable = false →
      clientAPI cl method (some r) resp tr
          = some (.wrap "request: json: " (.msg "json: unsupported type"))
        ∧ apiCallsTransport (some r) resp = false)
    ∧ rvalValidate none = some .valueNil
    ∧ (∀ r : RVal, r.kind ≠ .kptr → rvalValidate (some r) = some .valueNotPtr)
    ∧ (∀ r : RVal, r.kind = .kptr → r.elemKind ≠ .kstruct → r.elemKind ≠ .kbool →
        rvalValidate (some r) = some .valueNotStructOrBool)
    ∧ (∀ r : RVal, r.kind = .kptr → (r.elemKind = .kstruct ∨ r.elemKind = .kbool) →
        rvalValidate (some r) = none) := by
  refine ⟨?_, ?_, ?_, rfl, ?_, ?_, ?_⟩
  · intro cl method req resp tr e hq hr
    have hpre : apiPre req resp = some (.wrap "validate: resp " (.std e)) := by
      cases req with
      | none => simp [apiPre, hr]
      | some r =>
        have hq2 : rvalValidate (some r) = none ∧ r.marshalable = true := by
          simpa [reqPasses] using hq
        simp [apiPre, hq2.1, hq2.2, hr]
    exact ⟨by simp [clientAPI, hpre], by simp [apiCallsTransport, hpre]⟩
  · intro cl method r resp tr e hr
    have hpre : apiPre (some r) resp = some (.wrap "validate: req " (.std e)) := by
      simp [apiPre, hr]
    exact ⟨by simp [clientAPI, hpre], by simp [apiCallsTransport, hpre]⟩
  · intro cl method r resp tr hv hm
    have hpre : apiPre (some r) resp
        = some (.wrap "request: json: " (.msg "json: unsupported type")) := by
      simp [apiPre, hv, hm]
    exact ⟨by simp [clientAPI, hpre], by simp [apiCallsTransport, hpre]⟩
  · intro r h
    rw [rvalValidate_some, if_pos h]
  · intro r h1 h2 h3
    rw [rvalValidate_some, if_neg (by simp [h1]), if_pos ⟨h2, h3⟩]
  · intro r h1 h2
    rw [rvalValidate_some, if_neg (by simp [h1]), if_neg ?_]
    rintro ⟨ha, hb⟩
    rcases h2 with h2 | h2
    · exact ha h2
    · exact hb h2

/-- Witness for C3 (amended) at concrete invoker arguments. -/
theorem claim_C3_amended_shape_check_witness :
    clientAPI initClient "m" none none (.doErr "x")
        = some (.wrap "validate: resp " (.std .valueNil))
    ∧ apiCallsTransport none none = false
    ∧ rvalValidate (some ⟨.kptr, .kbool, true⟩) = none := by
  refine ⟨?_, ?_, ?_⟩
  · exact (claim_C3_amended_shape_check.1 initClient "m" none none (.doErr "x")
      .valueNil rfl rfl).1
  · exact (claim_C3_amended_shape_check.1 initClient "m" none none (.doErr "x")
      .valueNil rfl rfl).2
  · exact claim_C3_amended_shape_check.2.2.2.2.2.2 ⟨.kptr, .kbool, true⟩ rfl (Or.inr rfl)

/-- C4 fails on the code in its display-string detail: decoding the body
with a false success flag and description test makes the invoker return an
error, but the returned error is the wrapper response: test, not the bare
description test. -/
theorem claim_C4_counterexample :
    (clientAPI initClient "getMe" none (some ptrStructVal)
        (.ok (.ok (.jobj [("ok", .jbool false), ("description", .jstr "test")])))).map
        GoErr.message
      = some "response: test"
    ∧ "response: test" ≠ "test" := by
  exact ⟨rfl, by decide⟩

/-- C4 (amended): whenever the decoded envelope's success flag is false,
the invoker returns a non-nil error wrapping the embedded structured error
with the prefix response:. For the body with ok false and description test
the embedded `ResponseError` displays exactly test, and the returned
wrapper displays response: test. -/
theorem claim_C4_amended_false_flag :
    (∀ (cl : Client) (method : String) (req resp : Option RVal) (j : JVal)
        (r : ResponseError),
      apiPre req resp = none → decodeResponse j = .ok r → r.Ok = false →
      clientAPI cl method req resp (.ok (.ok j))
        = some (.wrap "response: " (.responseErr r)))
    ∧ clientAPI initClient "getMe" none (some ptrStructVal)
        (.ok (.ok (.jobj [("ok", .jbool false), ("description", .jstr "test")])))
        = some (.wrap "response: " (.responseErr ⟨false, 0, "test", 0⟩))
    ∧ GoErr.message (.responseErr ⟨false, 0, "test", 0⟩) = "test"
    ∧ GoErr.message (.wrap "response: " (.responseErr ⟨false, 0, "test", 0⟩))
        = "response: test" := by
  refine ⟨?_, rfl, rfl, rfl⟩
  intro cl method req resp j r hpre hdec hok
  simp [clientAPI, hpre, apiTransportPhase, hdec, hok]

/-- Witness for C4 (amended) at a concrete envelope. -/
theorem claim_C4_amended_false_flag_witness :
    clientAPI initClient "m" none (some ptrBoolVal)
        (.ok (.ok (.jobj [("description", .jstr "x")])))
      = some (.wrap "response: " (.responseErr ⟨false, 0, "x", 0⟩)) := by
  exact claim_C4_amended_false_flag.1 initClient "m" none (some ptrBoolVal)
    (.jobj [("description", .jstr "x")]) ⟨false, 0, "x", 0⟩ rfl rfl rfl

/-- C9: a response body that is exactly the empty JSON object decodes
without error into the zero envelope (the success flag defaulting to
false), and the invoker returns the wrapped remote-reported error whose
underlying `ResponseError` has a false flag, error code 0 and empty
description, so that underlying error displays the empty string. -/
theorem claim_C9_empty_object_envelope :
    ∀ (cl : Client) (method : String) (req resp : Option RVal),
      apiPre req resp = none →
      decodeResponse (.jobj []) = .ok zeroResponseError
      ∧ clientAPI cl method req resp (.ok (.ok (.jobj [])))
          = some (.wrap "response: " (.responseErr zeroResponseError))
      ∧ zeroResponseError.Ok = false
      ∧ zeroResponseError.ErrorCode = 0
      ∧ zeroResponseError.Description = ""
      ∧ GoErr.message (.responseErr zeroResponseError) = "" := by
  intro cl method req resp hpre
  refine ⟨rfl, ?_, rfl, rfl, rfl, rfl⟩
  simp [clientAPI, hpre]
  rfl

/-- Witness for C9 at a concrete call. -/
theorem claim_C9_empty_object_envelope_witness :
    clientAPI initClient "getMe" none (some ptrStructVal) (.ok (.ok (.jobj [])))
      = some (.wrap "response: " (.responseErr zeroResponseError)) := by
  exact (claim_C9_empty_object_envelope initClient "getMe" none (some ptrStructVal)
    rfl).2.1

/-- C1 fails on the current code: a transport failure whose text embeds a
/bot token / segment is returned verbatim by the client operations — the
token substring is still present and no placeholder appears, so no
redaction is applied. (The replacement of /bot token / by the /bot*****/
placeholder existed only in the earlier revision of the package,
src/unnamed/part_004.) -/
theorem claim_C1_counterexample :
    (clientSendMessage ⟨some .defaultHTTPClient, "https://api.telegram.org/bot12:ab/"⟩
        1 "hi" [] (.doErr "Post /bot12:ab/sendMessage: boom")).map GoErr.message
      = some "SendMessage: request: Post /bot12:ab/sendMessage: boom"
    ∧ strContainsB "SendMessage: request: Post /bot12:ab/sendMessage: boom"
        "/bot12:ab/" = true
    ∧ strContainsB "SendMessage: request: Post /bot12:ab/sendMessage: boom"
        "/bot*****/" = false := by
  refine ⟨rfl, by decide, by decide⟩

/-- C1 (amended): for every client operation whose transport call fails,
the returned error's message is the operation name, then request:, then
the underlying error's message kept verbatim — it contains the underlying
message (such as boom), and no token redaction is applied. -/
theorem claim_C1_amended_no_redaction :
    ∀ (cl : Client) (m : String),
      ((clientGetMe cl (.doErr m)).map GoErr.message
          = some ("GetMe: request: " ++ m))
      ∧ (∀ (chatID : Int) (text : String) (opts : List SendOption) (sm : SendMessage),
          NewSendMessage chatID text opts = .ok sm →
          (clientSendMessage cl chatID text opts (.doErr m)).map GoErr.message
            = some ("SendMessage: request: " ++ m))
      ∧ (∀ (chatID messageID : Int) (text : String) (opts : List EditOption)
          (em : EditMessage),
          NewEditMessage chatID messageID text opts = .ok em →
          (clientEditMessage cl chatID messageID text opts (.doErr m)).map GoErr.message
            = some ("EditMessage: request: " ++ m))
      ∧ (∀ (chatID messageID : Int) (dm : DeleteMessage),
          NewDeleteMessage chatID messageID = .ok dm →
          (clientDeleteMessage cl chatID messageID (.doErr m)).map GoErr.message
            = some ("DeleteMessage: request: " ++ m)) := by
  intro cl m
  refine ⟨?_, ?_, ?_, ?_⟩
  · show some ("GetMe: " ++ ("request: " ++ m)) = some ("GetMe: request: " ++ m)
    rw [← String.append_assoc]
    rfl
  · intro chatID text opts sm h
    have h2 : clientSendMessage cl chatID text opts (.doErr m)
        = some (.wrap "SendMessage: " (.wrap "request: " (.msg m))) := by
      unfold clientSendMessage
      rw [h]
      rfl
    rw [h2]
    show some ("SendMessage: " ++ ("request: " ++ m))
      = some ("SendMessage: request: " ++ m)
    rw [← String.append_assoc]
    rfl
  · intro chatID messageID text opts em h
    have h2 : clientEditMessage cl chatID messageID text opts (.doErr m)
        = some (.wrap "EditMessage: " (.wrap "request: " (.msg m))) := by
      unfold clientEditMessage
      rw [h]
      rfl
    rw [h2]
    show some ("EditMessage: " ++ ("request: " ++ m))
      = some ("EditMessage: request: " ++ m)
    rw [← String.append_assoc]
    rfl
  · intro chatID messageID dm h
    have h2 : clientDeleteMessage cl chatID messageID (.doErr m)
        = some (.wrap "DeleteMessage: " (.wrap "request: " (.msg m))) := by
      unfold clientDeleteMessage
      rw [h]
      rfl
    rw [h2]
    show some ("DeleteMessage: " ++ ("request: " ++ m))
      = some ("DeleteMessage: request: " ++ m)
    rw [← String.append_assoc]
    rfl

/-- Witness for C1 (amended): a transport failing with boom yields
operation errors whose messages contain boom. -/
theorem claim_C1_amended_no_redaction_witness :
    (clientGetMe initClient (.doErr "boom")).map GoErr.message
      = some "GetMe: request: boom"
    ∧ (clientSendMessage initClient 1 "a" [] (.doErr "boom")).map GoErr.message
      = some "SendMessage: request: boom"
    ∧ strContainsB "SendMessage: request: boom" "boom" = true := by
  refine ⟨?_, ?_, by decide⟩
  · have h := (claim_C1_amended_no_redaction initClient "boom").1
    rw [h]
    rfl
  · have h := (claim_C1_amended_no_redaction initClient "boom").2.1 1 "a" []
      ⟨⟨1, "a", ""⟩, 0, false, false, false⟩ rfl
    rw [h]
    rfl

/-- C10: whenever `NewSendMessage` or `NewEditMessage` returns a request,
its chat id, text (and, for edit, message id) equal the caller-supplied
arguments — the options, having run before the assignments, cannot
override them — and the returned request passes `Validate`. -/
theorem claim_C10_constructor_fields :
    (∀ (chatID : Int) (text : String) (opts : List SendOption) (sm : SendMessage),
        NewSendMessage chatID text opts = .ok sm →
        sm.base.ChatID = chatID ∧ sm.base.Text = text ∧ sm.Validate = none)
    ∧ (∀ (chatID messageID : Int) (text : String) (opts : List EditOption)
        (em : EditMessage),
        NewEditMessage chatID messageID text opts = .ok em →
        em.base.ChatID = chatID ∧ em.MessageID = messageID ∧ em.base.Text = text
          ∧ em.Validate = none) := by
  refine ⟨?_, ?_⟩
  · intro chatID text opts sm h
    dsimp only [NewSendMessage] at h
    split at h
    · exact absurd h (by simp)
    next hval =>
      injection h with h
      subst h
      exact ⟨rfl, rfl, hval⟩
  · intro chatID messageID text opts em h
    dsimp only [NewEditMessage] at h
    split at h
    · exact absurd h (by simp)
    next hval =>
      injection h with h
      subst h
      exact ⟨rfl, rfl, rfl, hval⟩

/-- Witness for C10 at concrete constructor calls. -/
theorem claim_C10_constructor_fields_witness :
    SendMessage.Validate ⟨⟨1, "a", "HTML"⟩, 0, false, false, false⟩ = none
    ∧ EditMessage.Validate ⟨5, ⟨1, "a", ""⟩⟩ = none := by
  refine ⟨?_, ?_⟩
  · exact (claim_C10_constructor_fields.1 1 "a" [ParseModeSendOption "HTML"]
      ⟨⟨1, "a", "HTML"⟩, 0, false, false, false⟩ rfl).2.2
  · exact (claim_C10_constructor_fields.2 1 5 "a" [] ⟨5, ⟨1, "a", ""⟩⟩ rfl).2.2.2

/-- Witness for C2 (amended) at concrete requests. -/
theorem claim_C2_amended_zero_chat_id_witness :
    SendMessage.Validate ⟨⟨0, "a", ""⟩, -5, true, false, false⟩ = some .emptyChatID
    ∧ DeleteMessage.Validate ⟨0, 0⟩ = some .emptyChatID
    ∧ EditMessage.Validate ⟨7, ⟨0, "", ""⟩⟩ = some .emptyChatID
    ∧ EditMessage.Validate ⟨0, ⟨1, "a", ""⟩⟩ = some .incorrectMessageID := by
  refine ⟨?_, ?_, ?_, ?_⟩
  · exact claim_C2_amended_zero_chat_id.1 ⟨⟨0, "a", ""⟩, -5, true, false, false⟩ rfl
  · exact claim_C2_amended_zero_chat_id.2.1 ⟨0, 0⟩ rfl
  · exact claim_C2_amended_zero_chat_id.2.2.1 ⟨7, ⟨0, "", ""⟩⟩ (by decide) rfl
  · exact claim_C2_amended_zero_chat_id.2.2.2 ⟨0, ⟨1, "a", ""⟩⟩ (by decide)

end Tg
